import Mathlib

/-!
Shallow embedding of the mars review-workflow core
(`backend/app/services/workflow.py`, `backend/app/api/utils.py`,
`backend/app/services/review_service.py`) together with theorems checking
the natural-language specification against it.

Statuses, steps, actions and field names are kept as strings, as in the
source. Python dict payloads are modelled as association lists of
`Value`s, where `Value.null` stands for Python `None` (so `d.get(k)`
yields `Value.null` both when the key is absent and when it maps to
null, matching `dict.get`'s default).
-/

namespace Mars

/-- A Python value as it appears in review update payloads: `None`, a
string, a boolean, or a nested configuration dict (the
`proposed_action_config` entry). -/
inductive Value where
  | null : Value
  | str : String → Value
  | bool : Bool → Value
  | config : Option Bool → Value
  deriving DecidableEq, Repr

/-- Python truthiness restricted to the values we model: `None`, `""`
and `False` are falsy; nested config dicts are only ever tested with
`is not None`, so their truthiness is irrelevant, but a Python dict is
truthy iff non-empty, which for our one-key configs means the key is
present. -/
def Value.truthy : Value → Bool
  | .null => false
  | .str s => decide (s ≠ "")
  | .bool b => b
  | .config c => c.isSome

/-- An update payload: the items of a Python dict, in insertion order. -/
def UpdateData := List (String × Value)

/-- Python `d.get(k)`: `Value.null` when the key is absent (Python returns
`None`) or when it maps to null. -/
def dget (d : UpdateData) (k : String) : Value :=
  match List.lookup k d with
  | some v => v
  | none => Value.null

/-- Python `list(d.keys())`. -/
def dkeys (d : UpdateData) : List String :=
  d.map Prod.fst

/-- Python `config.get("requires_sme", False)` when the payload carries a
config dict at the given value; `none` when it carries Python `None`
(or anything that is not a dict). -/
def getConfig : Value → Option (Option Bool)
  | .config c => some c
  | _ => none

/-- Truthiness of an optional string attribute (`if not proposed_action`):
`None` and `""` are falsy. -/
def strTruthy : Option String → Bool
  | none => false
  | some s => decide (s ≠ "")

-- ===========================================================================
-- State registry (workflow.py STATES)
-- ===========================================================================

/-- Metadata for one workflow state: its UI step and terminal flag
(`STATES` values in workflow.py; descriptions omitted, they are inert
documentation strings). -/
structure StateMeta where
  step : String
  terminal : Bool
  deriving DecidableEq, Repr

/-- The `STATES` table from workflow.py, as a partial map on status
strings; `none` models a status string that is not a `ReviewState`
member (`ReviewState(status)` raises and the callers catch). -/
def STATES (status : String) : Option StateMeta :=
  if status = "draft" then some ⟨"general_info", false⟩
  else if status = "pending_assignment" then some ⟨"assignment", false⟩
  else if status = "pending_sme" then some ⟨"sme_investigation", false⟩
  else if status = "pending_decision" then some ⟨"final_decision", false⟩
  else if status = "approved" then some ⟨"final_decision", true⟩
  else if status = "rejected" then some ⟨"final_decision", true⟩
  else if status = "cancelled" then some ⟨"general_info", true⟩
  else none

/-- The `TERMINAL_STATES` set from workflow.py. -/
def TERMINAL_STATES : List String :=
  ["approved", "rejected", "cancelled"]

/-- Model of `ReviewStateMachine.is_terminal`: unknown statuses are non-terminal
(the `except` branch returns False). -/
def is_terminal (status : String) : Bool :=
  match STATES status with
  | some meta => meta.terminal
  | none => false

/-- Model of `ReviewStateMachine.can_edit`. -/
def can_edit (status : String) : Bool :=
  !is_terminal status

/-- Model of `ReviewStateMachine.get_step_for_status`: unknown statuses default to
`"general_info"`. -/
def get_step_for_status (status : String) : String :=
  match STATES status with
  | some meta => meta.step
  | none => "general_info"

-- ===========================================================================
-- Review records and assignments
-- ===========================================================================

/-- The attributes of a `MaterialReviewDB` row that the workflow logic
reads structurally, plus a generic attribute map for the remaining data
columns (SME/approver/follow-up fields and the like), which the code
only ever moves around with `getattr`/`setattr`. -/
structure Review where
  review_id : Nat
  material_number : Nat
  status : String
  completed_checklist : Bool
  proposed_action : Option String
  review_reason : Option String
  is_superseded : Bool
  fields : List (String × Value)
  deriving DecidableEq, Repr

/-- A `ReviewAssignmentDB` row (the columns the permission checks use). -/
structure Assignment where
  review_id : Nat
  user_id : String
  assignment_type : String
  status : String
  deriving DecidableEq, Repr

-- ===========================================================================
-- SME requirement policy: the two coexisting implementations
-- ===========================================================================

namespace Workflow

/-- Model of `is_sme_required` from services/workflow.py: with no config, every
non-empty proposed action requires SME review. -/
def is_sme_required (proposed_action : Option String)
    (config : Option (Option Bool)) : Bool :=
  if strTruthy proposed_action = false then false
  else
    match config with
    | some c => c.getD false
    | none => true

end Workflow

namespace ApiUtils

/-- The `_SME_REQUIRED_ACTIONS_FALLBACK` set from api/utils.py. -/
def SME_REQUIRED_ACTIONS_FALLBACK : List String :=
  ["keep_reclassify", "keep_adjust_levels", "run_down", "dispose"]

/-- Model of `is_sme_required` from api/utils.py: with no config, only the
hardcoded fallback actions require SME review. -/
def is_sme_required (proposed_action : Option String)
    (config : Option (Option Bool)) : Bool :=
  if strTruthy proposed_action = false then false
  else
    match config with
    | some c => c.getD false
    | none =>
      match proposed_action with
      | some a => decide (a ∈ SME_REQUIRED_ACTIONS_FALLBACK)
      | none => false

end ApiUtils

-- ===========================================================================
-- Transition table and state machine (workflow.py)
-- ===========================================================================

/-- The six workflow actions. -/
inductive Action where
  | complete_checklist
  | assign
  | submit_sme_review
  | approve
  | reject
  | cancel
  deriving DecidableEq, Repr

/-- A row of the `TRANSITIONS` table: `from_state = none` models the
`"*"` wildcard; `to_state` is a function to model the dynamic target
(`_get_assign_target_state`); `guard = none` models an absent guard. -/
structure Transition where
  from_state : Option String
  action : Action
  to_state : Review → UpdateData → String
  guard : Option (Review → UpdateData → Bool)

/-- Model of `_get_assign_target_state` from workflow.py. -/
def _get_assign_target_state (review : Review) (data : UpdateData) : String :=
  let config := getConfig (dget data "proposed_action_config")
  if Workflow.is_sme_required review.proposed_action config then "pending_sme"
  else "pending_decision"

/-- The `TRANSITIONS` table from workflow.py, in order. -/
def TRANSITIONS : List Transition :=
  [ ⟨some "draft", Action.complete_checklist, fun _ _ => "pending_assignment",
      some fun r _ => r.completed_checklist⟩,
    ⟨some "pending_assignment", Action.assign, _get_assign_target_state, none⟩,
    ⟨some "pending_sme", Action.submit_sme_review, fun _ _ => "pending_decision",
      some fun _ d => decide (dget d "sme_recommendation" ≠ Value.null)⟩,
    ⟨some "pending_decision", Action.approve, fun _ _ => "approved",
      some fun _ d => decide (dget d "final_decision" ≠ Value.null) &&
        decide (dget d "final_decision" ≠ Value.str "reject")⟩,
    ⟨some "pending_decision", Action.reject, fun _ _ => "rejected",
      some fun _ d => decide (dget d "final_decision" = Value.str "reject")⟩,
    ⟨none, Action.cancel, fun _ _ => "cancelled", none⟩ ]

/-- The transition-scanning loop of `get_next_status`: first row whose
source state matches (exactly or by wildcard), whose action matches and
whose guard passes determines the result. -/
def findTransition (current_status : String) (action : Action)
    (review : Review) (data : UpdateData) :
    List Transition → Option String
  | [] => none
  | t :: ts =>
    let state_match :=
      match t.from_state with
      | none => true
      | some s => decide (s = current_status)
    let guard_ok :=
      match t.guard with
      | none => true
      | some g => g review data
    if state_match && decide (t.action = action) && guard_ok then
      some (t.to_state review data)
    else
      findTransition current_status action review data ts

/-- Model of `ReviewStateMachine.get_next_status`. -/
def get_next_status (current_status : String) (action : Action)
    (review : Review) (data : UpdateData) : Option String :=
  if is_terminal current_status then none
  else findTransition current_status action review data TRANSITIONS

/-- Model of `ReviewStateMachine.can_transition`. -/
def can_transition (current_status : String) (action : Action)
    (review : Review) (data : UpdateData) : Bool :=
  (get_next_status current_status action review data).isSome

/-- Python `a or b` for an optional status string (`next_status or
current`): `None` and `""` fall through to the default. -/
def pyOr (a : Option String) (b : String) : String :=
  match a with
  | some s => if s = "" then b else s
  | none => b

/-- Model of `ReviewStateMachine.determine_status_after_step` (workflow.py):
maps a UI step to an action and re-derives status through
`get_next_status`; unmatched steps and the pure-field steps keep the
current status. -/
def SM_determine_status_after_step (step : String) (review : Review)
    (update_data : UpdateData) : String :=
  let current := review.status
  if step = "general_info" then current
  else if step = "checklist" then
    pyOr (get_next_status current Action.complete_checklist review update_data) current
  else if step = "assignment" then
    pyOr (get_next_status current Action.assign review update_data) current
  else if step = "sme_investigation" then
    if (dget update_data "sme_recommendation").truthy then
      pyOr (get_next_status current Action.submit_sme_review review update_data) current
    else current
  else if step = "follow_up" then current
  else if step = "final_decision" then
    let fd := dget update_data "final_decision"
    if fd.truthy then
      if fd = Value.str "reject" then
        pyOr (get_next_status current Action.reject review update_data) current
      else
        pyOr (get_next_status current Action.approve review update_data) current
    else current
  else current

namespace ApiUtils

/-- Model of `determine_status_after_step` from api/utils.py: the version invoked
by the live `update_material_review` endpoint (reviews.py) and by
`ReviewService.update_review_step`. Computes the target status from the
step and submitted data alone for the checklist, assignment and
final-decision steps, without consulting the transition table. -/
def determine_status_after_step (step : String) (review_db : Review)
    (update_data : UpdateData) : String :=
  if step = "general_info" then "draft"
  else if step = "checklist" then "pending_assignment"
  else if step = "assignment" then "pending_sme"
  else if step = "sme_investigation" then
    if (dget update_data "sme_responded_date").truthy &&
        (dget update_data "sme_recommendation").truthy then "pending_decision"
    else if (dget update_data "sme_contacted_date").truthy then "pending_sme"
    else review_db.status
  else if step = "follow_up" then review_db.status
  else if step = "final_decision" then
    let final_decision := dget update_data "final_decision"
    if final_decision.truthy then
      if final_decision = Value.str "reject" then "rejected" else "approved"
    else review_db.status
  else review_db.status

end ApiUtils

-- ===========================================================================
-- Field sets (review_service.py)
-- ===========================================================================

namespace ReviewService

/-- The `INITIATOR_FIELDS` set. -/
def INITIATOR_FIELDS : List String :=
  [ "review_reason", "months_no_movement", "proposed_action",
    "proposed_safety_stock_qty", "proposed_unrestricted_qty",
    "business_justification",
    "has_open_orders", "has_forecast_demand", "checked_alternate_plants",
    "contacted_procurement", "reviewed_bom_usage", "checked_supersession",
    "checked_historical_usage", "open_order_numbers", "forecast_next_12m",
    "alternate_plant_qty", "procurement_feedback" ]

/-- The `FOLLOW_UP_FIELDS` set. -/
def FOLLOW_UP_FIELDS : List String :=
  [ "requires_follow_up", "next_review_date", "follow_up_reason",
    "review_frequency_weeks" ]

/-- The `SME_RESTRICTED_FIELDS` set. -/
def SME_RESTRICTED_FIELDS : List String :=
  [ "sme_recommendation", "sme_recommended_safety_stock_qty",
    "sme_recommended_unrestricted_qty", "sme_analysis",
    "alternative_applications", "risk_assessment" ]

/-- The `APPROVER_RESTRICTED_FIELDS` set. -/
def APPROVER_RESTRICTED_FIELDS : List String :=
  [ "requires_follow_up", "next_review_date", "follow_up_reason",
    "review_frequency_weeks",
    "final_decision", "final_safety_stock_qty", "final_unrestricted_qty",
    "final_notes", "estimated_savings", "implementation_date" ]

/-- The `CHECKLIST_FIELDS` set. -/
def CHECKLIST_FIELDS : List String :=
  [ "has_open_orders", "has_forecast_demand", "checked_alternate_plants",
    "contacted_procurement", "reviewed_bom_usage", "checked_supersession",
    "checked_historical_usage", "open_order_numbers", "forecast_next_12m",
    "alternate_plant_qty", "procurement_feedback" ]

/-- The `REQUIRED_CHECKLIST_FIELDS` set. -/
def REQUIRED_CHECKLIST_FIELDS : List String :=
  [ "has_open_orders", "has_forecast_demand", "checked_alternate_plants",
    "contacted_procurement", "reviewed_bom_usage", "checked_supersession",
    "checked_historical_usage" ]

/-- Model of `ReviewService.get_editable_fields_for_status`: the status-based
field-locking table. The pending_decision row is the union
`FOLLOW_UP_FIELDS | APPROVER_RESTRICTED_FIELDS` (list append here; only
membership matters downstream, as with Python sets). -/
def get_editable_fields_for_status (status : String) : List String :=
  if status = "draft" ∨ status = "pending_assignment" then INITIATOR_FIELDS
  else if status = "pending_sme" then SME_RESTRICTED_FIELDS
  else if status = "pending_decision" then
    FOLLOW_UP_FIELDS ++ APPROVER_RESTRICTED_FIELDS
  else []

end ReviewService

-- ===========================================================================
-- Sorted set helper (Python `sorted(set(...))` in error messages)
-- ===========================================================================

/-- Lexicographic comparison of character lists by code point, the
order Python's `sorted` uses on strings. -/
def charListLe : List Char → List Char → Bool
  | [], _ => true
  | _ :: _, [] => false
  | x :: xs, y :: ys =>
    if x.val < y.val then true
    else if y.val < x.val then false
    else charListLe xs ys

/-- String comparison by code points. -/
def strLe (a b : String) : Bool :=
  charListLe a.data b.data

/-- Insert a string into a sorted list. -/
def insertSorted (x : String) : List String → List String
  | [] => [x]
  | y :: ys => if strLe x y then x :: y :: ys else y :: insertSorted x ys

/-- Python `sorted(s)` for a set of field names held as a deduplicated
list: insertion sort. -/
def sortStrings (l : List String) : List String :=
  l.foldr insertSorted []

/-- Drop duplicate strings (set semantics; the retained occurrence is
immaterial because the result is sorted next). -/
def dedupStrings : List String → List String
  | [] => []
  | x :: xs => if x ∈ xs then dedupStrings xs else x :: dedupStrings xs

/-- Python `sorted(set(l))`. -/
def pySortedSet (l : List String) : List String :=
  sortStrings (dedupStrings l)

-- ===========================================================================
-- HTTP errors and the persistent-store model
-- ===========================================================================

/-- An `HTTPException` as raised by the field gates: status code, the
offending/missing field names embedded in the detail message, and a tag
for the rest of the message text. -/
structure HTTPError where
  status_code : Nat
  fields : List String
  message : String
  deriving DecidableEq, Repr

/-- A `ReviewChecklistDB` row: the checklist sub-record for a review. -/
structure ChecklistRecord where
  review_id : Nat
  fields : List (String × Value)
  deriving DecidableEq, Repr

/-- The slice of the persistent store the review service touches:
assignment rows, the set of admin user ids (profiles/RBAC — consulted
only by `_is_user_admin`, never by the field gates), review rows and
checklist rows. -/
structure Db where
  assignments : List Assignment
  admins : List String
  reviews : List Review
  checklists : List ChecklistRecord
  deriving DecidableEq, Repr

namespace ReviewService

/-- Model of `ReviewService._is_user_assigned`: true iff some assignment row
matches review, user and type and is not declined/reassigned. -/
def _is_user_assigned (assignments : List Assignment) (review_id : Nat)
    (user_id : String) (assignment_type : String) : Bool :=
  assignments.any fun a =>
    decide (a.review_id = review_id) && decide (a.user_id = user_id) &&
    decide (a.assignment_type = assignment_type) &&
    !(decide (a.status = "declined") || decide (a.status = "reassigned"))

/-- Model of `ReviewService._is_user_admin` (delegates to the RBAC admin check;
modelled as membership in the profile store's admin set). -/
def _is_user_admin (db : Db) (user_id : String) : Bool :=
  db.admins.contains user_id

/-- Model of `ReviewService.validate_field_permissions`: rejects SME-restricted
fields unless the user holds an active `sme` assignment, then
approver-restricted fields unless the user holds an active `approver`
assignment. Reads only the assignment rows — in particular it never
calls `_is_user_admin`, so admin status cannot influence the outcome. -/
def validate_field_permissions (db : Db) (review_id : Nat)
    (user_id : String) (update_data : UpdateData) :
    Except HTTPError Unit :=
  let sme_fields_in_update :=
    (dkeys update_data).filter fun k => decide (k ∈ SME_RESTRICTED_FIELDS)
  if sme_fields_in_update ≠ [] ∧
      _is_user_assigned db.assignments review_id user_id "sme" = false then
    Except.error ⟨403, pySortedSet sme_fields_in_update,
      "Only the assigned SME can update SME investigation fields."⟩
  else
    let approver_fields_in_update :=
      (dkeys update_data).filter fun k => decide (k ∈ APPROVER_RESTRICTED_FIELDS)
    if approver_fields_in_update ≠ [] ∧
        _is_user_assigned db.assignments review_id user_id "approver" = false then
      Except.error ⟨403, pySortedSet approver_fields_in_update,
        "Only the assigned approver can update final decision fields."⟩
    else
      Except.ok ()

/-- Model of `ReviewService.validate_step_locking`: rejects any submitted field
outside the editable set for the review's current status, naming the
sorted offending fields. -/
def validate_step_locking (review_status : String)
    (update_data : UpdateData) : Except HTTPError Unit :=
  let editable_fields := get_editable_fields_for_status review_status
  let locked_fields :=
    (dkeys update_data).filter fun k => decide (k ∉ editable_fields)
  if locked_fields ≠ [] then
    Except.error ⟨403, pySortedSet locked_fields,
      "These fields are locked after workflow progression."⟩
  else
    Except.ok ()

/-- The valid members of `ReviewStepEnum`; `ReviewStepEnum(step)` raises
on anything else. -/
def STEP_NAMES : List String :=
  [ "general_info", "checklist", "assignment", "sme_investigation",
    "follow_up", "final_decision" ]

/-- The column names of `MaterialReviewDB` (db_models.py): `setattr`
only fires for keys satisfying `hasattr(review_db, field)`, i.e. these.
Checklist sub-fields are deliberately absent — they live on
`ReviewChecklistDB`. -/
def REVIEW_ATTRS : List String :=
  [ "review_id", "material_number", "initiated_by", "review_date",
    "created_by", "last_updated_by",
    "review_reason", "current_stock_qty", "current_stock_value",
    "months_no_movement", "proposed_action", "proposed_safety_stock_qty",
    "proposed_unrestricted_qty", "business_justification",
    "completed_checklist",
    "sme_name", "sme_email", "sme_department", "sme_feedback_method",
    "sme_contacted_date", "sme_responded_date", "sme_recommendation",
    "sme_recommended_safety_stock_qty", "sme_recommended_unrestricted_qty",
    "sme_analysis", "alternative_applications", "risk_assessment",
    "final_decision", "final_safety_stock_qty", "final_unrestricted_qty",
    "final_notes", "decided_by", "decided_at",
    "requires_follow_up", "next_review_date", "follow_up_reason",
    "review_frequency_weeks", "previous_review_id", "estimated_savings",
    "implementation_date", "status", "created_at", "updated_at",
    "is_superseded", "data_snapshot_job_id", "is_data_stale",
    "data_stale_since" ]

/-- Python `setattr` on an attribute map: overwrite an existing key in place or
add it. -/
def setKV (l : List (String × Value)) (k : String) (v : Value) :
    List (String × Value) :=
  if (l.map Prod.fst).contains k then
    l.map fun kv => if kv.1 = k then (k, v) else kv
  else
    l ++ [(k, v)]

/-- A payload value landing in an `Optional[str]` column. -/
def asOptStr : Value → Option String
  | Value.str s => some s
  | _ => none

/-- One `setattr(review_db, field, value)` guarded by `hasattr`. The
structurally modelled `Optional[str]` columns that a validated payload
can actually carry (`proposed_action`, `review_reason`) are set in their
typed slots; every other existing column goes to the generic attribute
map. (The gates in `update_review_step` run first, so lifecycle columns
such as `status` never appear among the validated keys.) -/
def setReviewField (r : Review) (k : String) (v : Value) : Review :=
  if k ∈ REVIEW_ATTRS then
    if k = "proposed_action" then { r with proposed_action := asOptStr v }
    else if k = "review_reason" then { r with review_reason := asOptStr v }
    else { r with fields := setKV r.fields k v }
  else r

/-- The field-update loop of `update_review_step` /
`update_material_review`: partial update, only fields provided. -/
def applyUpdates (r : Review) (update_data : UpdateData) : Review :=
  update_data.foldl (fun acc kv => setReviewField acc kv.1 kv.2) r

/-- Auto-clear of follow-up scheduling fields when `requires_follow_up`
is submitted as literal `False`. -/
def clearFollowUp (r : Review) (update_data : UpdateData) : Review :=
  if "requires_follow_up" ∈ dkeys update_data ∧
      dget update_data "requires_follow_up" = Value.bool false then
    { r with fields :=
        setKV (setKV (setKV r.fields "next_review_date" Value.null)
          "follow_up_reason" Value.null) "review_frequency_weeks" Value.null }
  else r

/-- Model of `ReviewService.save_checklist`: extract checklist fields, reject
(400) when a required boolean field is missing, upsert the checklist
row, and hand back the payload with checklist fields removed. -/
def save_checklist (checklists : List ChecklistRecord) (review_id : Nat)
    (update_data : UpdateData) :
    Except HTTPError (List ChecklistRecord × UpdateData) :=
  let checklist_data := update_data.filter fun kv =>
    decide (kv.1 ∈ CHECKLIST_FIELDS)
  let missing_fields := REQUIRED_CHECKLIST_FIELDS.filter fun f =>
    decide (f ∉ dkeys checklist_data)
  if missing_fields ≠ [] then
    Except.error ⟨400, missing_fields,
      "Checklist step requires all boolean fields."⟩
  else
    let upserted :=
      if checklists.any (fun c => decide (c.review_id = review_id)) then
        checklists.map fun c =>
          if c.review_id = review_id then
            { c with fields :=
                checklist_data.foldl (fun acc kv => setKV acc kv.1 kv.2) c.fields }
          else c
      else
        checklists ++ [⟨review_id, checklist_data⟩]
    Except.ok (upserted,
      update_data.filter fun kv => decide (kv.1 ∉ CHECKLIST_FIELDS))

/-- Model of `ReviewService.supersede_previous_approvals`: mark every other
non-superseded approved review of the material as superseded; returns
the new review table and the superseded ids. -/
def supersede_previous_approvals (reviews : List Review)
    (material_number : Nat) (current_review_id : Nat) :
    List Review × List Nat :=
  let matches_query := fun (r : Review) =>
    r.material_number = material_number ∧ r.review_id ≠ current_review_id ∧
    r.status = "approved" ∧ r.is_superseded = false
  ( reviews.map fun r =>
      if matches_query r then { r with is_superseded := true } else r,
    (reviews.filter fun r => decide (matches_query r)).map Review.review_id )

/-- Model of `ReviewService.complete_assignments_for_review`: move every
pending/accepted assignment of the review to cancelled (review
cancelled) or completed (otherwise); other assignment rows untouched. -/
def complete_assignments_for_review (assignments : List Assignment)
    (review_id : Nat) (new_status : String) : List Assignment :=
  let target_status := if new_status = "cancelled" then "cancelled" else "completed"
  assignments.map fun a =>
    if a.review_id = review_id ∧ (a.status = "pending" ∨ a.status = "accepted") then
      { a with status := target_status }
    else a

/-- Model of `ReviewService.handle_status_transition`: notification dispatch is
an external collaborator with no effect on the modelled store; then
supersession on approval, then assignment completion on entering a
terminal state. -/
def handle_status_transition (db : Db) (review : Review)
    (new_status : String) : Db :=
  let db1 :=
    if new_status = "approved" then
      { db with reviews :=
          (supersede_previous_approvals db.reviews review.material_number
            review.review_id).1 }
    else db
  if new_status ∈ TERMINAL_STATES then
    { db1 with assignments :=
        (complete_assignments_for_review db1.assignments review.review_id
          new_status) }
  else db1

/-- Committing the mutated review row back to the store. -/
def commitReview (db : Db) (review : Review) : Db :=
  { db with reviews :=
      db.reviews.map fun r =>
        if r.review_id = review.review_id then review else r }

/-- Model of `ReviewService.update_review_step`: step validation
(`ReviewStepEnum(step)` raising on unknown steps), status-based locking,
role-based permissions, checklist persistence with
`completed_checklist := true`, field application, follow-up clearing,
status recomputation via api/utils `determine_status_after_step`,
commit, and transition side effects when the status changed. Errors are
raised before any mutation, so an error result carries no changed
state. -/
def update_review_step (db : Db) (review_db : Review) (step : String)
    (update_data : UpdateData) (user_id : String) :
    Except HTTPError (Review × Db) :=
  if step ∉ STEP_NAMES then
    Except.error ⟨500, [], "ValueError: invalid ReviewStepEnum value"⟩
  else
    match validate_step_locking review_db.status update_data with
    | Except.error e => Except.error e
    | Except.ok _ =>
      match validate_field_permissions db review_db.review_id user_id
          update_data with
      | Except.error e => Except.error e
      | Except.ok _ =>
        let checklistStage :=
          if step = "checklist" then
            (save_checklist db.checklists review_db.review_id
              update_data).map fun p => (p.1, p.2, true)
          else
            Except.ok (db.checklists, update_data, false)
        match checklistStage with
        | Except.error e => Except.error e
        | Except.ok (checklists1, data1, checklistDone) =>
          let review1 :=
            if checklistDone then { review_db with completed_checklist := true }
            else review_db
          let review2 := clearFollowUp (applyUpdates review1 data1) data1
          let old_status := review2.status
          let new_status := ApiUtils.determine_status_after_step step review2 data1
          let review3 := { review2 with status := new_status }
          let db1 := commitReview { db with checklists := checklists1 } review3
          let db2 :=
            if old_status ≠ new_status then
              handle_status_transition db1 review3 new_status
            else db1
          Except.ok (review3, db2)

end ReviewService

-- ===========================================================================
-- Helper lemmas
-- ===========================================================================

theorem mem_insertSorted {x y : String} {l : List String} :
    x ∈ insertSorted y l ↔ x = y ∨ x ∈ l := by
  induction l with
  | nil => simp [insertSorted]
  | cons z zs ih =>
    simp only [insertSorted]
    split
    · simp [List.mem_cons]
    · simp only [List.mem_cons, ih]
      tauto

theorem mem_sortStrings {x : String} {l : List String} :
    x ∈ sortStrings l ↔ x ∈ l := by
  induction l with
  | nil => simp [sortStrings]
  | cons y ys ih =>
    show x ∈ insertSorted y (sortStrings ys) ↔ _
    rw [mem_insertSorted, ih]
    simp [List.mem_cons]

theorem mem_dedupStrings {x : String} {l : List String} :
    x ∈ dedupStrings l ↔ x ∈ l := by
  induction l with
  | nil => simp [dedupStrings]
  | cons y ys ih =>
    simp only [dedupStrings]
    split
    · rename_i hy
      rw [ih]
      simp only [List.mem_cons]
      constructor
      · exact Or.inr
      · rintro (rfl | hx)
        · exact hy
        · exact hx
    · simp only [List.mem_cons, ih]

theorem mem_pySortedSet {x : String} {l : List String} :
    x ∈ pySortedSet l ↔ x ∈ l := by
  rw [pySortedSet, mem_sortStrings, mem_dedupStrings]

theorem _is_user_assigned_iff {assignments : List Assignment}
    {review_id : Nat} {user_id : String} {assignment_type : String} :
    ReviewService._is_user_assigned assignments review_id user_id
        assignment_type = true ↔
    ∃ a ∈ assignments, a.review_id = review_id ∧ a.user_id = user_id ∧
      a.assignment_type = assignment_type ∧
      a.status ≠ "declined" ∧ a.status ≠ "reassigned" := by
  simp [ReviewService._is_user_assigned, List.any_eq_true,
    Bool.and_eq_true, decide_eq_true_iff, Bool.or_eq_true, Bool.not_eq_true',
    Bool.or_eq_false_iff, decide_eq_false_iff_not, and_assoc]

theorem gns_pd_approve_shape (review : Review) (d : UpdateData) :
    get_next_status "pending_decision" Action.approve review d =
      (if (decide (dget d "final_decision" ≠ Value.null) &&
          decide (dget d "final_decision" ≠ Value.str "reject")) = true
       then some "approved" else none) := rfl

theorem gns_pd_reject_shape (review : Review) (d : UpdateData) :
    get_next_status "pending_decision" Action.reject review d =
      (if (decide (dget d "final_decision" = Value.str "reject")) = true
       then some "rejected" else none) := rfl

theorem gns_draft_checklist_shape (review : Review) (d : UpdateData) :
    get_next_status "draft" Action.complete_checklist review d =
      (if review.completed_checklist = true then some "pending_assignment"
       else none) := rfl

theorem gns_pa_assign_shape (review : Review) (d : UpdateData) :
    get_next_status "pending_assignment" Action.assign review d =
      some (_get_assign_target_state review d) := rfl

theorem gns_ps_sme_shape (review : Review) (d : UpdateData) :
    get_next_status "pending_sme" Action.submit_sme_review review d =
      (if (decide (dget d "sme_recommendation" ≠ Value.null)) = true
       then some "pending_decision" else none) := rfl

-- ===========================================================================
-- C7: terminal states admit no transition; cancel is a wildcard
-- ===========================================================================

/-- C7: for every review whose status is terminal, `get_next_status`
returns none for every action and payload; and for every non-terminal
status, the cancel action yields cancelled for every review and payload
(wildcard source, no guard). -/
theorem terminal_frozen_and_cancel_wildcard :
    ∀ (status : String) (action : Action) (review : Review) (d : UpdateData),
      (is_terminal status = true →
        get_next_status status action review d = none) ∧
      (is_terminal status = false →
        get_next_status status Action.cancel review d = some "cancelled") := by
  intro status action review d
  constructor
  · intro h
    simp [get_next_status, h]
  · intro h
    unfold get_next_status
    rw [if_neg (by simp [h])]
    simp [findTransition, TRANSITIONS]

/-- Witness for C7 at concrete inputs. -/
theorem terminal_frozen_and_cancel_wildcard_witness :
    get_next_status "approved" Action.cancel
        ⟨1, 100, "approved", true, none, none, false, []⟩ [] = none ∧
    get_next_status "draft" Action.cancel
        ⟨1, 100, "draft", false, none, none, false, []⟩ [] = some "cancelled" :=
  ⟨(terminal_frozen_and_cancel_wildcard "approved" Action.cancel
      ⟨1, 100, "approved", true, none, none, false, []⟩ []).1 (by decide),
   (terminal_frozen_and_cancel_wildcard "draft" Action.cancel
      ⟨1, 100, "draft", false, none, none, false, []⟩ []).2 (by decide)⟩

-- ===========================================================================
-- C8: approve/reject guards on pending_decision
-- ===========================================================================

/-- C8: from pending_decision, approve yields approved iff
`final_decision` is present (non-null) and not the literal `"reject"`;
reject yields rejected iff it is `"reject"`; when it is absent or null,
both actions produce no transition (status unchanged). -/
theorem pending_decision_approve_reject_guards :
    ∀ (review : Review) (d : UpdateData),
      (get_next_status "pending_decision" Action.approve review d =
          some "approved" ↔
        dget d "final_decision" ≠ Value.null ∧
        dget d "final_decision" ≠ Value.str "reject") ∧
      (get_next_status "pending_decision" Action.reject review d =
          some "rejected" ↔
        dget d "final_decision" = Value.str "reject") ∧
      (dget d "final_decision" = Value.null →
        get_next_status "pending_decision" Action.approve review d = none ∧
        get_next_status "pending_decision" Action.reject review d = none) := by
  intro review d
  rw [gns_pd_approve_shape, gns_pd_reject_shape]
  refine ⟨?_, ?_, ?_⟩
  · by_cases h1 : dget d "final_decision" = Value.null
    · simp [h1]
    · by_cases h2 : dget d "final_decision" = Value.str "reject"
      · simp [h1, h2]
      · simp [h1, h2]
  · by_cases h2 : dget d "final_decision" = Value.str "reject"
    · simp [h2]
    · simp [h2]
  · intro h
    have h2 : dget d "final_decision" ≠ Value.str "reject" := by
      rw [h]; decide
    simp [h, h2]

/-- Witness for C8 at concrete inputs. -/
theorem pending_decision_approve_reject_guards_witness :
    get_next_status "pending_decision" Action.approve
        ⟨1, 100, "pending_decision", true, none, none, false, []⟩
        [("final_decision", Value.str "approve")] = some "approved" ∧
    get_next_status "pending_decision" Action.reject
        ⟨1, 100, "pending_decision", true, none, none, false, []⟩ [] = none :=
  ⟨(pending_decision_approve_reject_guards
      ⟨1, 100, "pending_decision", true, none, none, false, []⟩
      [("final_decision", Value.str "approve")]).1.mpr
      ⟨by decide, by decide⟩,
   ((pending_decision_approve_reject_guards
      ⟨1, 100, "pending_decision", true, none, none, false, []⟩ []).2.2
      (by decide)).2⟩

-- ===========================================================================
-- C4: assign routes by the SME-requirement policy
-- ===========================================================================

/-- C4: from pending_assignment, the assign action always fires and its
target is pending_sme exactly when the SME-requirement policy (the
workflow.py `is_sme_required`, applied to the review's proposed_action
and the payload's `proposed_action_config`) is true, pending_decision
exactly when it is false. -/
theorem assign_routes_by_sme_policy :
    ∀ (review : Review) (d : UpdateData),
      (get_next_status "pending_assignment" Action.assign review d =
        some (if Workflow.is_sme_required review.proposed_action
            (getConfig (dget d "proposed_action_config")) = true
          then "pending_sme" else "pending_decision")) ∧
      (get_next_status "pending_assignment" Action.assign review d =
          some "pending_sme" ↔
        Workflow.is_sme_required review.proposed_action
          (getConfig (dget d "proposed_action_config")) = true) ∧
      (get_next_status "pending_assignment" Action.assign review d =
          some "pending_decision" ↔
        Workflow.is_sme_required review.proposed_action
          (getConfig (dget d "proposed_action_config")) = false) := by
  intro review d
  rw [gns_pa_assign_shape]
  unfold _get_assign_target_state
  cases h : Workflow.is_sme_required review.proposed_action
      (getConfig (dget d "proposed_action_config")) <;> simp [h]

/-- Witness for C4 at concrete inputs: the same review routed both ways
by its proposed_action/config. -/
theorem assign_routes_by_sme_policy_witness :
    get_next_status "pending_assignment" Action.assign
        ⟨1, 100, "pending_assignment", true, some "dispose", none, false, []⟩
        [] = some "pending_sme" ∧
    get_next_status "pending_assignment" Action.assign
        ⟨1, 100, "pending_assignment", true, none, none, false, []⟩ [] =
      some "pending_decision" :=
  ⟨(assign_routes_by_sme_policy
      ⟨1, 100, "pending_assignment", true, some "dispose", none, false, []⟩
      []).2.1.mpr (by decide),
   (assign_routes_by_sme_policy
      ⟨1, 100, "pending_assignment", true, none, none, false, []⟩
      []).2.2.mpr (by decide)⟩

-- ===========================================================================
-- C5: the two is_sme_required implementations and their fallbacks
-- ===========================================================================

/-- C5: both `is_sme_required` implementations return false on an
empty/absent proposed_action and both defer to a supplied config's
`requires_sme` flag; with no config, the workflow.py version returns
true for every non-empty action while the api/utils version tests
membership in the hardcoded fallback set, so the two functions disagree
on every non-empty action outside the fallback set when config is
absent and are not extensionally equal. -/
theorem two_is_sme_required_fallbacks :
    ∀ (a : Option String) (cc : Option (Option Bool)) (c : Option Bool)
      (s : String),
      (strTruthy a = false →
        Workflow.is_sme_required a cc = false ∧
        ApiUtils.is_sme_required a cc = false) ∧
      (strTruthy a = true →
        Workflow.is_sme_required a (some c) = c.getD false ∧
        ApiUtils.is_sme_required a (some c) = c.getD false) ∧
      (strTruthy a = true → Workflow.is_sme_required a none = true) ∧
      (s ≠ "" →
        (ApiUtils.is_sme_required (some s) none = true ↔
          s ∈ ApiUtils.SME_REQUIRED_ACTIONS_FALLBACK)) ∧
      (s ≠ "" → s ∉ ApiUtils.SME_REQUIRED_ACTIONS_FALLBACK →
        Workflow.is_sme_required (some s) none = true ∧
        ApiUtils.is_sme_required (some s) none = false) ∧
      Workflow.is_sme_required (some "keep_no_change") none ≠
        ApiUtils.is_sme_required (some "keep_no_change") none := by
  intro a cc c s
  refine ⟨?_, ?_, ?_, ?_, ?_, by decide⟩
  · intro h
    simp [Workflow.is_sme_required, ApiUtils.is_sme_required, h]
  · intro h
    simp [Workflow.is_sme_required, ApiUtils.is_sme_required, h]
  · intro h
    simp [Workflow.is_sme_required, h]
  · intro h
    have ht : strTruthy (some s) = true := by simp [strTruthy, h]
    simp [ApiUtils.is_sme_required, ht]
  · intro h hn
    have ht : strTruthy (some s) = true := by simp [strTruthy, h]
    simp [Workflow.is_sme_required, ApiUtils.is_sme_required, ht, hn]

/-- Witness for C5 at concrete inputs. -/
theorem two_is_sme_required_fallbacks_witness :
    Workflow.is_sme_required none none = false ∧
    Workflow.is_sme_required (some "keep_no_change") none = true ∧
    ApiUtils.is_sme_required (some "keep_no_change") none = false :=
  ⟨(two_is_sme_required_fallbacks none none none "x").1 (by decide) |>.1,
   ((two_is_sme_required_fallbacks (some "keep_no_change") none none
      "keep_no_change").2.2.1 (by decide)),
   ((two_is_sme_required_fallbacks none none none
      "keep_no_change").2.2.2.2.1 (by decide) (by decide)).2⟩

-- ===========================================================================
-- C3: checklist guard
-- ===========================================================================

theorem setReviewField_completed (r : Review) (k : String) (v : Value) :
    (ReviewService.setReviewField r k v).completed_checklist =
      r.completed_checklist := by
  unfold ReviewService.setReviewField
  split
  · split
    · rfl
    · split
      · rfl
      · rfl
  · rfl

theorem applyUpdates_completed (d : UpdateData) (r : Review) :
    (ReviewService.applyUpdates r d).completed_checklist =
      r.completed_checklist := by
  induction d generalizing r with
  | nil => rfl
  | cons kv tl ih =>
    show (ReviewService.applyUpdates
      (ReviewService.setReviewField r kv.1 kv.2) tl).completed_checklist = _
    rw [ih, setReviewField_completed]

theorem clearFollowUp_completed (r : Review) (d : UpdateData) :
    (ReviewService.clearFollowUp r d).completed_checklist =
      r.completed_checklist := by
  unfold ReviewService.clearFollowUp
  split
  · rfl
  · rfl

/-- C3: the complete_checklist action advances a draft review to
pending_assignment only when `completed_checklist` is true at evaluation
time — with the flag false the action produces no transition and the
step-level evaluation keeps the status — and every checklist submission
that goes through `update_review_step` successfully has set the flag
(it is true on the resulting review), so no checklist submission that
fails to set the flag can advance status. -/
theorem complete_checklist_requires_flag :
    ∀ (review : Review) (d : UpdateData) (db : Db) (uid : String)
      (out : Review × Db),
      (review.completed_checklist = false →
        get_next_status "draft" Action.complete_checklist review d = none) ∧
      (review.status = "draft" → review.completed_checklist = false →
        SM_determine_status_after_step "checklist" review d = review.status) ∧
      (ReviewService.update_review_step db review "checklist" d uid =
          Except.ok out →
        out.1.completed_checklist = true) := by
  intro review d db uid out
  refine ⟨?_, ?_, ?_⟩
  · intro h
    rw [gns_draft_checklist_shape]
    simp [h]
  · intro hs hf
    show pyOr (get_next_status review.status Action.complete_checklist
      review d) review.status = review.status
    rw [hs, gns_draft_checklist_shape]
    simp [hf, pyOr]
  · intro hok
    unfold ReviewService.update_review_step at hok
    rw [if_neg (by decide)] at hok
    cases h1 : ReviewService.validate_step_locking review.status d with
    | error e => rw [h1] at hok; exact absurd hok (by simp)
    | ok u =>
      rw [h1] at hok
      cases h2 : ReviewService.validate_field_permissions db review.review_id
          uid d with
      | error e => rw [h2] at hok; exact absurd hok (by simp)
      | ok u2 =>
        rw [h2] at hok
        rw [if_pos rfl] at hok
        cases h3 : ReviewService.save_checklist db.checklists review.review_id
            d with
        | error e => rw [h3] at hok; exact absurd hok (by simp [Except.map])
        | ok p =>
          rw [h3] at hok
          simp only [Except.map] at hok
          injection hok with hout
          rw [← hout]
          simp [clearFollowUp_completed, applyUpdates_completed]

/-- Witness for C3 at concrete inputs. -/
theorem complete_checklist_requires_flag_witness :
    get_next_status "draft" Action.complete_checklist
      ⟨1, 100, "draft", false, none, none, false, []⟩ [] = none :=
  (complete_checklist_requires_flag
    ⟨1, 100, "draft", false, none, none, false, []⟩ [] ⟨[], [], [], []⟩ "u"
    (⟨1, 100, "draft", false, none, none, false, []⟩, ⟨[], [], [], []⟩)).1
    rfl

-- ===========================================================================
-- C6: sme_investigation step progression
-- ===========================================================================

/-- C6 counterexample: a pending_sme review submitted through the live
sme_investigation step path (api/utils `determine_status_after_step`)
with a non-null `sme_recommendation` but no `sme_responded_date` does
NOT move to pending_decision, contradicting the claim's iff. -/
theorem sme_recommendation_alone_does_not_progress :
    dget [("sme_recommendation", Value.str "keep")] "sme_recommendation" ≠
      Value.null ∧
    ApiUtils.determine_status_after_step "sme_investigation"
      ⟨1, 100, "pending_sme", true, some "dispose", none, false, []⟩
      [("sme_recommendation", Value.str "keep")] = "pending_sme" :=
  ⟨by decide, rfl⟩

/-- C6 (amended): for a review in pending_sme, the sme_investigation
step (api/utils `determine_status_after_step`, the live path) yields
pending_decision iff the submitted data carries truthy
`sme_responded_date` AND truthy `sme_recommendation`; otherwise the
status is unchanged. The `submit_sme_review` transition guard alone
(workflow.py) requires only a non-null `sme_recommendation`. -/
theorem sme_investigation_step_progression :
    ∀ (review : Review) (d : UpdateData),
      review.status = "pending_sme" →
      ((ApiUtils.determine_status_after_step "sme_investigation" review d =
          "pending_decision" ↔
        (dget d "sme_responded_date").truthy = true ∧
        (dget d "sme_recommendation").truthy = true) ∧
      (¬ ((dget d "sme_responded_date").truthy = true ∧
          (dget d "sme_recommendation").truthy = true) →
        ApiUtils.determine_status_after_step "sme_investigation" review d =
          review.status) ∧
      (∀ (review2 : Review) (d2 : UpdateData),
        get_next_status "pending_sme" Action.submit_sme_review review2 d2 =
            some "pending_decision" ↔
          dget d2 "sme_recommendation" ≠ Value.null)) := by
  intro review d hs
  have hshape : ApiUtils.determine_status_after_step "sme_investigation"
      review d =
      (if ((dget d "sme_responded_date").truthy &&
          (dget d "sme_recommendation").truthy) = true then "pending_decision"
       else if (dget d "sme_contacted_date").truthy = true then "pending_sme"
       else review.status) := rfl
  refine ⟨?_, ?_, ?_⟩
  · rw [hshape]
    by_cases hb : (dget d "sme_responded_date").truthy = true ∧
        (dget d "sme_recommendation").truthy = true
    · simp [hb.1, hb.2]
    · have hb2 : ¬ (((dget d "sme_responded_date").truthy &&
          (dget d "sme_recommendation").truthy) = true) := by
        rw [Bool.and_eq_true]; exact hb
      rw [if_neg hb2]
      by_cases hc : (dget d "sme_contacted_date").truthy = true
      · simp [hc, hb]
      · simp [hc, hs, hb]
  · intro hb
    have hb2 : ¬ (((dget d "sme_responded_date").truthy &&
        (dget d "sme_recommendation").truthy) = true) := by
      rw [Bool.and_eq_true]; exact hb
    rw [hshape, if_neg hb2]
    by_cases hc : (dget d "sme_contacted_date").truthy = true
    · simp [hc, hs]
    · simp [hc]
  · intro review2 d2
    rw [gns_ps_sme_shape]
    by_cases h : dget d2 "sme_recommendation" = Value.null
    · simp [h]
    · simp [h]

/-- Witness for the amended C6 at concrete inputs. -/
theorem sme_investigation_step_progression_witness :
    ApiUtils.determine_status_after_step "sme_investigation"
      ⟨1, 100, "pending_sme", true, some "dispose", none, false, []⟩
      [("sme_responded_date", Value.str "2024-02-01"),
       ("sme_recommendation", Value.str "keep")] = "pending_decision" :=
  ((sme_investigation_step_progression
    ⟨1, 100, "pending_sme", true, some "dispose", none, false, []⟩
    [("sme_responded_date", Value.str "2024-02-01"),
     ("sme_recommendation", Value.str "keep")] rfl).1).mpr
    ⟨by decide, by decide⟩

-- ===========================================================================
-- C10: api/utils determine_status_after_step ignores current status
-- ===========================================================================

/-- C10 counterexample: a non-null `final_decision` that is the empty
string (hence not `"reject"`) does NOT yield approved — the live branch
tests Python truthiness, not non-nullity, and falls back to the current
status. -/
theorem final_decision_empty_string_not_approved :
    dget [("final_decision", Value.str "")] "final_decision" ≠ Value.null ∧
    dget [("final_decision", Value.str "")] "final_decision" ≠
      Value.str "reject" ∧
    ApiUtils.determine_status_after_step "final_decision"
      ⟨1, 100, "draft", false, none, none, false, []⟩
      [("final_decision", Value.str "")] = "draft" :=
  ⟨by decide, by decide, rfl⟩

/-- C10 (amended): api/utils `determine_status_after_step` computes the
target from step and data alone — for every review (any current status,
draft or terminal included), checklist yields pending_assignment,
assignment yields pending_sme, and final_decision with a truthy
(non-null, non-empty) value yields approved (or rejected for the
literal `"reject"`). -/
theorem utils_status_from_step_and_data_alone :
    ∀ (review : Review) (d : UpdateData),
      ApiUtils.determine_status_after_step "checklist" review d =
        "pending_assignment" ∧
      ApiUtils.determine_status_after_step "assignment" review d =
        "pending_sme" ∧
      ((dget d "final_decision").truthy = true →
        dget d "final_decision" ≠ Value.str "reject" →
        ApiUtils.determine_status_after_step "final_decision" review d =
          "approved") ∧
      (dget d "final_decision" = Value.str "reject" →
        ApiUtils.determine_status_after_step "final_decision" review d =
          "rejected") := by
  intro review d
  have hshape : ApiUtils.determine_status_after_step "final_decision"
      review d =
      (if (dget d "final_decision").truthy = true then
        (if dget d "final_decision" = Value.str "reject" then "rejected"
         else "approved")
       else review.status) := rfl
  refine ⟨rfl, rfl, ?_, ?_⟩
  · intro h1 h2
    rw [hshape, if_pos h1, if_neg h2]
  · intro h
    have h1 : (dget d "final_decision").truthy = true := by
      rw [h]; decide
    rw [hshape, if_pos h1, if_pos h]

/-- Witness for the amended C10 at concrete inputs, including a review
already in a terminal status. -/
theorem utils_status_from_step_and_data_alone_witness :
    ApiUtils.determine_status_after_step "checklist"
      ⟨1, 100, "approved", true, none, none, false, []⟩ [] =
      "pending_assignment" ∧
    ApiUtils.determine_status_after_step "final_decision"
      ⟨1, 100, "draft", false, none, none, false, []⟩
      [("final_decision", Value.str "approve")] = "approved" :=
  ⟨(utils_status_from_step_and_data_alone
      ⟨1, 100, "approved", true, none, none, false, []⟩ []).1,
   (utils_status_from_step_and_data_alone
      ⟨1, 100, "draft", false, none, none, false, []⟩
      [("final_decision", Value.str "approve")]).2.2.1 (by decide)
      (by decide)⟩

-- ===========================================================================
-- C1: role-based field permissions, no admin bypass
-- ===========================================================================

/-- C1: if the payload carries an SME-restricted field and the user
holds no active (non-declined, non-reassigned) `sme` assignment on the
review, `validate_field_permissions` rejects with a 403 naming exactly
the offending SME fields; symmetrically a payload carrying an
approver-restricted field without an active `approver` assignment is
rejected with a 403 (naming exactly the offending approver fields
whenever the SME gate passes); and the outcome never depends on the
admin set — two users differing only in admin status get identical
results. -/
theorem field_permissions_no_admin_bypass :
    ∀ (db : Db) (rid : Nat) (uid : String) (d : UpdateData),
      ((∃ k ∈ dkeys d, k ∈ ReviewService.SME_RESTRICTED_FIELDS) →
        (¬ ∃ a ∈ db.assignments, a.review_id = rid ∧ a.user_id = uid ∧
            a.assignment_type = "sme" ∧ a.status ≠ "declined" ∧
            a.status ≠ "reassigned") →
        ∃ e, ReviewService.validate_field_permissions db rid uid d =
            Except.error e ∧ e.status_code = 403 ∧
          ∀ k, k ∈ e.fields ↔
            (k ∈ dkeys d ∧ k ∈ ReviewService.SME_RESTRICTED_FIELDS)) ∧
      ((∃ k ∈ dkeys d, k ∈ ReviewService.APPROVER_RESTRICTED_FIELDS) →
        (¬ ∃ a ∈ db.assignments, a.review_id = rid ∧ a.user_id = uid ∧
            a.assignment_type = "approver" ∧ a.status ≠ "declined" ∧
            a.status ≠ "reassigned") →
        (∃ e, ReviewService.validate_field_permissions db rid uid d =
            Except.error e ∧ e.status_code = 403) ∧
        ((ReviewService._is_user_assigned db.assignments rid uid "sme" =
              true ∨
            ¬ ∃ k ∈ dkeys d, k ∈ ReviewService.SME_RESTRICTED_FIELDS) →
          ∃ e, ReviewService.validate_field_permissions db rid uid d =
              Except.error e ∧ e.status_code = 403 ∧
            ∀ k, k ∈ e.fields ↔
              (k ∈ dkeys d ∧
                k ∈ ReviewService.APPROVER_RESTRICTED_FIELDS))) ∧
      (∀ admins2, ReviewService.validate_field_permissions
          { db with admins := admins2 } rid uid d =
        ReviewService.validate_field_permissions db rid uid d) := by
  intro db rid uid d
  refine ⟨?_, ?_, fun admins2 => rfl⟩
  · intro hmem hno
    have hfalse : ReviewService._is_user_assigned db.assignments rid uid
        "sme" = false := by
      rw [Bool.eq_false_iff, Ne, _is_user_assigned_iff]
      exact hno
    have hne : ((dkeys d).filter fun k =>
        decide (k ∈ ReviewService.SME_RESTRICTED_FIELDS)) ≠ [] := by
      obtain ⟨k, hk1, hk2⟩ := hmem
      exact List.ne_nil_of_mem
        (List.mem_filter.mpr ⟨hk1, decide_eq_true hk2⟩)
    unfold ReviewService.validate_field_permissions
    rw [if_pos ⟨hne, hfalse⟩]
    refine ⟨_, rfl, rfl, fun k => ?_⟩
    rw [mem_pySortedSet, List.mem_filter, decide_eq_true_iff]
  · intro hmem hno
    have hfalse : ReviewService._is_user_assigned db.assignments rid uid
        "approver" = false := by
      rw [Bool.eq_false_iff, Ne, _is_user_assigned_iff]
      exact hno
    have hne : ((dkeys d).filter fun k =>
        decide (k ∈ ReviewService.APPROVER_RESTRICTED_FIELDS)) ≠ [] := by
      obtain ⟨k, hk1, hk2⟩ := hmem
      exact List.ne_nil_of_mem
        (List.mem_filter.mpr ⟨hk1, decide_eq_true hk2⟩)
    constructor
    · by_cases hsv : ((dkeys d).filter fun k =>
          decide (k ∈ ReviewService.SME_RESTRICTED_FIELDS)) ≠ [] ∧
          ReviewService._is_user_assigned db.assignments rid uid "sme" = false
      · unfold ReviewService.validate_field_permissions
        rw [if_pos hsv]
        exact ⟨_, rfl, rfl⟩
      · unfold ReviewService.validate_field_permissions
        rw [if_neg hsv, if_pos ⟨hne, hfalse⟩]
        exact ⟨_, rfl, rfl⟩
    · intro hpass
      have hsv : ¬ (((dkeys d).filter fun k =>
          decide (k ∈ ReviewService.SME_RESTRICTED_FIELDS)) ≠ [] ∧
          ReviewService._is_user_assigned db.assignments rid uid "sme" =
            false) := by
        rcases hpass with hyes | hnofield
        · rintro ⟨-, hf⟩
          rw [hyes] at hf
          exact absurd hf (by decide)
        · rintro ⟨hf, -⟩
          apply hf
          rw [List.filter_eq_nil_iff]
          intro k hk
          rw [Bool.not_eq_true, decide_eq_false_iff_not]
          exact fun hmem2 => hnofield ⟨k, hk, hmem2⟩
      unfold ReviewService.validate_field_permissions
      rw [if_neg hsv, if_pos ⟨hne, hfalse⟩]
      refine ⟨_, rfl, rfl, fun k => ?_⟩
      rw [mem_pySortedSet, List.mem_filter, decide_eq_true_iff]

/-- Witness for C1 at concrete inputs: a user who is an admin but holds
no assignment is rejected on an SME field. -/
theorem field_permissions_no_admin_bypass_witness :
    ∃ e, ReviewService.validate_field_permissions
        ⟨[], ["admin-user"], [], []⟩ 1 "admin-user"
        [("sme_analysis", Value.str "notes")] = Except.error e ∧
      e.status_code = 403 ∧
      ∀ k, k ∈ e.fields ↔
        (k ∈ dkeys [("sme_analysis", Value.str "notes")] ∧
          k ∈ ReviewService.SME_RESTRICTED_FIELDS) :=
  (field_permissions_no_admin_bypass ⟨[], ["admin-user"], [], []⟩ 1
    "admin-user" [("sme_analysis", Value.str "notes")]).1
    ⟨"sme_analysis", by decide, by decide⟩
    (by rintro ⟨a, ha, -⟩; exact List.not_mem_nil a ha)

-- ===========================================================================
-- C2: status-based field locking, rejection before mutation
-- ===========================================================================

/-- C2: the status-lock table admits exactly the mapped field sets
(initiator fields for draft/pending_assignment, SME fields for
pending_sme, follow-up plus approver fields for pending_decision, and
the empty set for every other status); any payload field outside the
set makes `validate_step_locking` raise a 403 naming exactly the
offending fields; and inside `update_review_step` that rejection is the
whole result — no mutated review or store is produced (all-or-nothing,
no partial writes). -/
theorem step_locking_gate :
    ∀ (status : String) (d : UpdateData),
      ((status = "draft" ∨ status = "pending_assignment") →
        ReviewService.get_editable_fields_for_status status =
          ReviewService.INITIATOR_FIELDS) ∧
      (status = "pending_sme" →
        ReviewService.get_editable_fields_for_status status =
          ReviewService.SME_RESTRICTED_FIELDS) ∧
      (status = "pending_decision" →
        ∀ k, k ∈ ReviewService.get_editable_fields_for_status status ↔
          (k ∈ ReviewService.FOLLOW_UP_FIELDS ∨
            k ∈ ReviewService.APPROVER_RESTRICTED_FIELDS)) ∧
      (status ≠ "draft" → status ≠ "pending_assignment" →
        status ≠ "pending_sme" → status ≠ "pending_decision" →
        ReviewService.get_editable_fields_for_status status = []) ∧
      ((∃ k ∈ dkeys d,
          k ∉ ReviewService.get_editable_fields_for_status status) →
        ∃ e, ReviewService.validate_step_locking status d =
            Except.error e ∧ e.status_code = 403 ∧
          ∀ k, k ∈ e.fields ↔ (k ∈ dkeys d ∧
            k ∉ ReviewService.get_editable_fields_for_status status)) ∧
      (∀ (db : Db) (review_db : Review) (step : String) (uid : String)
          (e : HTTPError),
        review_db.status = status → step ∈ ReviewService.STEP_NAMES →
        ReviewService.validate_step_locking status d = Except.error e →
        ReviewService.update_review_step db review_db step d uid =
          Except.error e) := by
  intro status d
  refine ⟨?_, ?_, ?_, ?_, ?_, ?_⟩
  · rintro (rfl | rfl) <;> rfl
  · rintro rfl; rfl
  · rintro rfl k
    show k ∈ ReviewService.FOLLOW_UP_FIELDS ++
      ReviewService.APPROVER_RESTRICTED_FIELDS ↔ _
    exact List.mem_append
  · intro h1 h2 h3 h4
    unfold ReviewService.get_editable_fields_for_status
    rw [if_neg (by rintro (h | h) <;> [exact h1 h; exact h2 h]),
      if_neg h3, if_neg h4]
  · intro hmem
    have hne : ((dkeys d).filter fun k =>
        decide (k ∉ ReviewService.get_editable_fields_for_status status)) ≠
          [] := by
      obtain ⟨k, hk1, hk2⟩ := hmem
      exact List.ne_nil_of_mem
        (List.mem_filter.mpr ⟨hk1, decide_eq_true hk2⟩)
    unfold ReviewService.validate_step_locking
    rw [if_pos hne]
    refine ⟨_, rfl, rfl, fun k => ?_⟩
    rw [mem_pySortedSet, List.mem_filter, decide_eq_true_iff]
  · intro db review_db step uid e hs hstep herr
    unfold ReviewService.update_review_step
    rw [if_neg (not_not_intro hstep), hs, herr]

/-- Witness for C2 at concrete inputs: an SME field submitted while the
review is in draft is rejected, and the orchestrated update returns
exactly that error. -/
theorem step_locking_gate_witness :
    ∃ e, ReviewService.validate_step_locking "draft"
        [("sme_analysis", Value.str "x")] = Except.error e ∧
      e.status_code = 403 ∧
      ReviewService.update_review_step ⟨[], [], [], []⟩
        ⟨1, 100, "draft", false, none, none, false, []⟩ "general_info"
        [("sme_analysis", Value.str "x")] "u" = Except.error e := by
  obtain ⟨e, he1, he2, -⟩ :=
    (step_locking_gate "draft" [("sme_analysis", Value.str "x")]).2.2.2.2.1
      ⟨"sme_analysis", by decide, by decide⟩
  exact ⟨e, he1, he2,
    (step_locking_gate "draft" [("sme_analysis", Value.str "x")]).2.2.2.2.2
      ⟨[], [], [], []⟩ ⟨1, 100, "draft", false, none, none, false, []⟩
      "general_info" "u" e rfl (by decide) he1⟩

-- ===========================================================================
-- C9: approval supersedes previous approvals for the material
-- ===========================================================================

/-- C9: when a review transitions to approved, every other review row
for the same material in status approved with `is_superseded = false`
is set to `is_superseded := true` (all other columns unchanged); the
transitioning review's own row is excluded by its review_id and stays
unchanged; rows for other materials or in non-approved statuses or
already superseded stay unchanged. -/
theorem approval_supersedes_previous :
    ∀ (db : Db) (review : Review) (i : Nat) (r : Review),
      db.reviews[i]? = some r →
      ((r.material_number = review.material_number →
        r.review_id ≠ review.review_id → r.status = "approved" →
        r.is_superseded = false →
        ((ReviewService.handle_status_transition db review
            "approved").reviews)[i]? =
          some { r with is_superseded := true }) ∧
      (r.review_id = review.review_id →
        ((ReviewService.handle_status_transition db review
            "approved").reviews)[i]? = some r) ∧
      ((r.material_number ≠ review.material_number ∨
          r.status ≠ "approved" ∨ r.is_superseded = true) →
        ((ReviewService.handle_status_transition db review
            "approved").reviews)[i]? = some r)) := by
  intro db review i r hr
  have hrw : ((ReviewService.handle_status_transition db review
      "approved").reviews)[i]? =
      (db.reviews[i]?).map fun x =>
        if x.material_number = review.material_number ∧
            x.review_id ≠ review.review_id ∧ x.status = "approved" ∧
            x.is_superseded = false then
          { x with is_superseded := true }
        else x := by
    show ((ReviewService.supersede_previous_approvals db.reviews
      review.material_number review.review_id).1)[i]? = _
    unfold ReviewService.supersede_previous_approvals
    exact List.getElem?_map _ db.reviews i
  rw [hrw, hr]
  refine ⟨?_, ?_, ?_⟩
  · intro h1 h2 h3 h4
    rw [Option.map_some']
    rw [if_pos ⟨h1, h2, h3, h4⟩]
  · intro h1
    rw [Option.map_some']
    rw [if_neg (by rintro ⟨-, h2, -, -⟩; exact h2 h1)]
  · intro h1
    rw [Option.map_some']
    rw [if_neg (by
      rintro ⟨h2, -, h3, h4⟩
      rcases h1 with h | h | h
      · exact h h2
      · exact h h3
      · rw [h4] at h; exact absurd h (by decide))]

/-- Witness for C9 at concrete inputs: approving review 2 supersedes
review 1 (same material, approved, not superseded) and leaves review
2's own row untouched. -/
theorem approval_supersedes_previous_witness :
    ((ReviewService.handle_status_transition
      ⟨[], [], [⟨1, 100, "approved", true, none, none, false, []⟩,
        ⟨2, 100, "approved", true, none, none, false, []⟩], []⟩
      ⟨2, 100, "approved", true, none, none, false, []⟩
      "approved").reviews)[0]? =
      some ⟨1, 100, "approved", true, none, none, true, []⟩ ∧
    ((ReviewService.handle_status_transition
      ⟨[], [], [⟨1, 100, "approved", true, none, none, false, []⟩,
        ⟨2, 100, "approved", true, none, none, false, []⟩], []⟩
      ⟨2, 100, "approved", true, none, none, false, []⟩
      "approved").reviews)[1]? =
      some ⟨2, 100, "approved", true, none, none, false, []⟩ :=
  ⟨(approval_supersedes_previous
      ⟨[], [], [⟨1, 100, "approved", true, none, none, false, []⟩,
        ⟨2, 100, "approved", true, none, none, false, []⟩], []⟩
      ⟨2, 100, "approved", true, none, none, false, []⟩ 0
      ⟨1, 100, "approved", true, none, none, false, []⟩ rfl).1
      rfl (by decide) rfl rfl,
   (approval_supersedes_previous
      ⟨[], [], [⟨1, 100, "approved", true, none, none, false, []⟩,
        ⟨2, 100, "approved", true, none, none, false, []⟩], []⟩
      ⟨2, 100, "approved", true, none, none, false, []⟩ 1
      ⟨2, 100, "approved", true, none, none, false, []⟩ rfl).2.1 rfl⟩

end Mars
